import Mathlib

/-!
Verification of the anomaly-detection core of the HSM intrusion detector
(`onboard/main.py`, class `ShakeDetectorWeb`).

The sensor hardware (`photocell.read_u16`, `tilt_sensor.value`) and the clock
(`time.time`) are external collaborators; their values enter the model as
per-tick inputs.  Voltages and timestamps are modelled as rationals, the raw
tilt value (a 0/1 digital read) as `Bool`.  One call of the body of
`detection_loop` is one tick.
-/

namespace HSM

/-- Constant `LIGHT_THRESHOLD = 0.495627` from `main.py` line 25. -/
def LIGHT_THRESHOLD : ℚ := 495627 / 1000000

/-- Constant `CHANGE_COUNT_THRESHOLD = 3` (state changes to trigger), line 28. -/
def CHANGE_COUNT_THRESHOLD : ℕ := 3

/-- Constant `CHANGE_TIME_WINDOW = 2.0` seconds, line 29. -/
def CHANGE_TIME_WINDOW : ℚ := 2

/-- Constant `CHANGE_DEBOUNCE = 0.05` seconds (minimum time between changes), line 30. -/
def CHANGE_DEBOUNCE : ℚ := 1 / 20

/-- Constant `CONSECUTIVE_ALERTS = 2` (consecutive anomalies needed for alarm), line 33. -/
def CONSECUTIVE_ALERTS : ℕ := 2

/-- Constant `SMOOTHING_WINDOW = 3` (light sensor smoothing), line 34. -/
def SMOOTHING_WINDOW : ℕ := 3

/-- Buffer update of `read_light_sensor` (lines 86-88): append the new raw
reading, then `pop(0)` the oldest entry when the length exceeds
`SMOOTHING_WINDOW`. -/
def read_light_buf (buf : List ℚ) (light_val : ℚ) : List ℚ :=
  let b1 := buf ++ [light_val]
  if SMOOTHING_WINDOW < b1.length then b1.tail else b1

/-- `read_light_sensor` (lines 81-91): the scaled raw reading
`read_u16() * 3.3 / 65535` is the external input `light_val`; the method
updates the smoothing buffer and returns `sum(buffer) / len(buffer)`. -/
def read_light_sensor (buf : List ℚ) (light_val : ℚ) : List ℚ × ℚ :=
  let b2 := read_light_buf buf light_val
  (b2, b2.sum / (b2.length : ℚ))

/-- Tilt-debounce state of `ShakeDetectorWeb`: `last_tilt_state` (line 51),
`last_change_time` (line 53) and the `total_changes` counter (line 66). -/
structure TiltState where
  last_tilt_state : Bool
  last_change_time : ℚ
  total_changes : ℕ
deriving DecidableEq

/-- `detect_tilt_change` (lines 93-108): report a change only when the raw
value differs from `last_tilt_state` and `current_time - last_change_time >
CHANGE_DEBOUNCE`; `last_tilt_state` is always overwritten with the raw value,
`last_change_time` and `total_changes` only on an accepted change. -/
def detect_tilt_change (s : TiltState) (current_state : Bool) (current_time : ℚ) :
    TiltState × Bool :=
  if current_state ≠ s.last_tilt_state then
    if CHANGE_DEBOUNCE < current_time - s.last_change_time then
      ({ last_tilt_state := current_state, last_change_time := current_time,
         total_changes := s.total_changes + 1 }, true)
    else
      ({ s with last_tilt_state := current_state }, false)
  else
    ({ s with last_tilt_state := current_state }, false)

/-- `update_shake_pattern` (lines 110-128): optionally append `current_time`
to `change_times`, prune entries older than `CHANGE_TIME_WINDOW`, report
whether the count meets `CHANGE_COUNT_THRESHOLD`, and bump
`shake_anomaly_count` whenever the pruned count equals the threshold exactly.
Returns (new `change_times`, new `shake_anomaly_count`, `shake_detected`). -/
def update_shake_pattern (change_times : List ℚ) (shake_anomaly_count : ℕ)
    (change_detected : Bool) (current_time : ℚ) : List ℚ × ℕ × Bool :=
  let ct1 := if change_detected then change_times ++ [current_time] else change_times
  let ct2 := ct1.filter fun t => decide (current_time - t ≤ CHANGE_TIME_WINDOW)
  let shake_detected : Bool := decide (CHANGE_COUNT_THRESHOLD ≤ ct2.length)
  let sc := if shake_detected && decide (ct2.length = CHANGE_COUNT_THRESHOLD)
            then shake_anomaly_count + 1 else shake_anomaly_count
  (ct2, sc, shake_detected)

/-- `detect_light_anomaly` (lines 130-132): `light > LIGHT_THRESHOLD`. -/
def detect_light_anomaly (light : ℚ) : Bool :=
  decide (LIGHT_THRESHOLD < light)

/-- Alarm state of `ShakeDetectorWeb`: `consecutive_count` (line 56),
`alarm_active` (line 57) and the buzzer duty value last written by
`buzzer.duty_u16` (0 at init, line 45). -/
structure AlarmSt where
  consecutive_count : ℕ
  alarm_active : Bool
  buzzer_duty : ℕ
deriving DecidableEq

/-- `update_alarm` (lines 134-147).  `system_active` is the instance flag the
method reads (`self.system_active`).  On an anomalous enabled tick the
consecutive counter is incremented and, once it reaches
`CONSECUTIVE_ALERTS`, the alarm turns on (50% duty) unless already on;
otherwise the counter resets to 0 and an active alarm is silenced. -/
def update_alarm (s : AlarmSt) (is_anomaly system_active : Bool) : AlarmSt :=
  if is_anomaly && system_active then
    let c := s.consecutive_count + 1
    if CONSECUTIVE_ALERTS ≤ c then
      if s.alarm_active then
        { s with consecutive_count := c }
      else
        { consecutive_count := c, alarm_active := true, buzzer_duty := 32768 }
    else
      { s with consecutive_count := c }
  else
    if s.alarm_active then
      { consecutive_count := 0, alarm_active := false, buzzer_duty := 0 }
    else
      { s with consecutive_count := 0 }

/-- Reason list built in `detection_loop` lines 171-176: append `Light` when
the light test fired, then `Shake` when the pattern test fired. -/
def loop_reasons (light_anomaly shake_pattern : Bool) : List String :=
  let r0 : List String := []
  let r1 := if light_anomaly then r0 ++ ["Light"] else r0
  let r2 := if shake_pattern then r1 ++ ["Shake"] else r1
  r2

/-- Reason string of `detection_loop` line 178:
`" + ".join(reasons) if reasons else "Normal"`. -/
def loop_reason (reasons : List String) : String :=
  if reasons.isEmpty then ("Normal") else String.intercalate (" + ") reasons

/-- The `current_state` dictionary published for the web interface
(lines 69-75 initial form, lines 187-198 per-tick form). -/
structure Snapshot where
  light : ℚ
  tilt : Bool
  is_anomaly : Bool
  reason : String
  changes_in_window : ℕ
  system_active : Bool
  alarm_active : Bool
  total_readings : ℕ
  light_anomalies : ℕ
  shake_anomalies : ℕ
deriving DecidableEq

/-- Full detector state of a `ShakeDetectorWeb` instance (the fields touched
by the detection loop). -/
structure LoopState where
  light_buffer : List ℚ
  tilt : TiltState
  change_times : List ℚ
  alarm : AlarmSt
  total_readings : ℕ
  light_anomaly_count : ℕ
  shake_anomaly_count : ℕ
  system_active : Bool
  snapshot : Snapshot
deriving DecidableEq

/-- Initial snapshot dictionary (lines 69-75); the fields absent from the
initial dictionary are given their startup values. -/
def snapshot_init : Snapshot :=
  { light := 0, tilt := false, is_anomaly := false, reason := ("Normal"),
    changes_in_window := 0, system_active := true, alarm_active := false,
    total_readings := 0, light_anomalies := 0, shake_anomalies := 0 }

/-- `ShakeDetectorWeb.__init__` (lines 37-75): empty buffers, zero counters,
alarm off, system active; `tilt0` is the initial tilt sensor read of line 51. -/
def hsm_init (tilt0 : Bool) : LoopState :=
  { light_buffer := [], tilt := { last_tilt_state := tilt0, last_change_time := 0,
                                  total_changes := 0 },
    change_times := [], alarm := { consecutive_count := 0, alarm_active := false,
                                   buzzer_duty := 0 },
    total_readings := 0, light_anomaly_count := 0, shake_anomaly_count := 0,
    system_active := true, snapshot := snapshot_init }

/-- One iteration of the body of `detection_loop` (lines 153-204).  Inputs:
the scaled light reading, the raw tilt value and the clock value of this
tick.  When `system_active` is false (lines 199-203) the loop only silences
an active alarm; no sensor processing happens and the snapshot is not
refreshed. -/
def loop_tick (s : LoopState) (light_raw : ℚ) (tilt_raw : Bool) (now : ℚ) : LoopState :=
  if s.system_active then
    let lightPair := read_light_sensor s.light_buffer light_raw
    let light := lightPair.2
    let tiltPair := detect_tilt_change s.tilt tilt_raw now
    let change_detected := tiltPair.2
    let shakeTriple := update_shake_pattern s.change_times s.shake_anomaly_count
        change_detected now
    let shake_pattern := shakeTriple.2.2
    let light_anomaly := detect_light_anomaly light
    let is_anomaly := light_anomaly || shake_pattern
    let lac := if light_anomaly then s.light_anomaly_count + 1 else s.light_anomaly_count
    let reasons := loop_reasons light_anomaly shake_pattern
    let alarm2 := update_alarm s.alarm is_anomaly s.system_active
    { light_buffer := lightPair.1, tilt := tiltPair.1, change_times := shakeTriple.1,
      alarm := alarm2, total_readings := s.total_readings + 1,
      light_anomaly_count := lac, shake_anomaly_count := shakeTriple.2.1,
      system_active := s.system_active,
      snapshot := { light := light, tilt := tilt_raw, is_anomaly := is_anomaly,
                    reason := loop_reason reasons, changes_in_window := shakeTriple.1.length,
                    system_active := s.system_active, alarm_active := alarm2.alarm_active,
                    total_readings := s.total_readings + 1, light_anomalies := lac,
                    shake_anomalies := shakeTriple.2.1 } }
  else
    if s.alarm.alarm_active then
      { s with alarm := { consecutive_count := s.alarm.consecutive_count,
                          alarm_active := false, buzzer_duty := 0 } }
    else
      s

/-- The tick with the hardware light read modelled as fallible: `none` stands
for `photocell.read_u16()` raising.  Neither `read_light_sensor` (lines
81-91) nor `detection_loop` (lines 149-205) contains a `try`/`except`, so a
raising read propagates out of the tick (`none` result = the loop thread
dies).  The disabled branch never touches the sensor. -/
def loop_tickE (s : LoopState) (light_read : Option ℚ) (tilt_raw : Bool) (now : ℚ) :
    Option LoopState :=
  if s.system_active then
    match light_read with
    | none => none
    | some light_raw => some (loop_tick s light_raw tilt_raw now)
  else
    some (loop_tick s 0 tilt_raw now)

/-- The `is_anomaly` value computed by a tick of `detection_loop`
(lines 164-168), as a function of the pre-tick state and the inputs. -/
def tick_anomaly (s : LoopState) (light_raw : ℚ) (tilt_raw : Bool) (now : ℚ) : Bool :=
  let light := (read_light_sensor s.light_buffer light_raw).2
  let change_detected := (detect_tilt_change s.tilt tilt_raw now).2
  let shake_pattern :=
    (update_shake_pattern s.change_times s.shake_anomaly_count change_detected now).2.2
  detect_light_anomaly light || shake_pattern

/-- Iterated buffer updates of `read_light_sensor` over a list of readings. -/
def run_light : List ℚ → List ℚ → List ℚ
  | buf, [] => buf
  | buf, v :: vs => run_light (read_light_buf buf v) vs

/-- An input `(is_anomaly, system_enabled)` qualifies when both flags hold. -/
def qualifies (p : Bool × Bool) : Bool := p.1 && p.2

/-- Length of the trailing run of qualifying inputs, folded left with start
value `n`. -/
def streak_from (n : ℕ) (l : List (Bool × Bool)) : ℕ :=
  l.foldl (fun m p => if qualifies p then m + 1 else 0) n

/-- Length of the trailing run of qualifying inputs of a trace. -/
def streak (l : List (Bool × Bool)) : ℕ := streak_from 0 l

/-- `update_alarm` folded over a trace of `(is_anomaly, system_enabled)`
inputs, one per tick. -/
def run_alarm (s : AlarmSt) (l : List (Bool × Bool)) : AlarmSt :=
  l.foldl (fun st p => update_alarm st p.1 p.2) s

/-- Alarm state at startup (lines 45, 56, 57): counter 0, inactive, duty 0. -/
def alarm_init : AlarmSt :=
  { consecutive_count := 0, alarm_active := false, buzzer_duty := 0 }

/-- A state from which the kill switch has been engaged after one anomalous
tick: run one tick with a bright reading (1 V > threshold) from the initial
state, then clear `system_active`. -/
def state_c2 : LoopState :=
  { loop_tick (hsm_init false) 1 false 1 with system_active := false }

/-- The initial state with the kill switch engaged. -/
def state_c4 : LoopState :=
  { hsm_init false with system_active := false }

/-- The buffer update always has the fresh reading available, so the buffer
is nonempty at the division point. -/
lemma read_light_buf_length_pos (buf : List ℚ) (v : ℚ) :
    1 ≤ (read_light_buf buf v).length := by
  by_cases h : SMOOTHING_WINDOW < (buf ++ [v]).length
  · simp only [read_light_buf, if_pos h, List.length_tail]
    simp only [SMOOTHING_WINDOW, List.length_append, List.length_singleton] at h
    simp [List.length_append]
    omega
  · simp only [read_light_buf]
    rw [if_neg h]
    simp

/-- C10: in `read_light_sensor` the new reading is appended to the history
before the average is computed, so the buffer at the division
`sum(buffer)/len(buffer)` has length at least one for every starting buffer,
and the denominator is nonzero: the division-by-zero case is unreachable. -/
theorem light_buffer_nonempty_after_update (buf : List ℚ) (v : ℚ) :
    1 ≤ (read_light_sensor buf v).1.length ∧
    ((read_light_sensor buf v).1.length : ℚ) ≠ 0 := by
  have h : 1 ≤ (read_light_sensor buf v).1.length := read_light_buf_length_pos buf v
  refine ⟨h, ?_⟩
  have h0 : (read_light_sensor buf v).1.length ≠ 0 := by omega
  exact Nat.cast_ne_zero.mpr h0

/-- C8: after `update_shake_pattern` runs at time `now`, every retained
timestamp is within `CHANGE_TIME_WINDOW` of `now`, and the returned
`shake_detected` flag compares the threshold against the length of the
already-pruned sequence. -/
theorem pattern_window_invariant (times : List ℚ) (sc : ℕ) (cd : Bool) (now : ℚ) :
    (∀ t ∈ (update_shake_pattern times sc cd now).1, now - t ≤ CHANGE_TIME_WINDOW) ∧
    (update_shake_pattern times sc cd now).2.2 =
      decide (CHANGE_COUNT_THRESHOLD ≤ (update_shake_pattern times sc cd now).1.length) := by
  constructor
  · intro t ht
    simp only [update_shake_pattern, List.mem_filter, decide_eq_true_eq] at ht
    exact ht.2
  · rfl

/-- Witness for `pattern_window_invariant` at a concrete retained
timestamp. -/
theorem pattern_window_invariant_witness :
    (0 : ℚ) ∈ (update_shake_pattern [0] 0 false 1).1 ∧ (1 : ℚ) - 0 ≤ CHANGE_TIME_WINDOW :=
  ⟨by norm_num [update_shake_pattern, CHANGE_TIME_WINDOW],
   (pattern_window_invariant [0] 0 false 1).1 0
     (by norm_num [update_shake_pattern, CHANGE_TIME_WINDOW])⟩

/-- C7: classification is a pure function of its inputs: the light anomaly
fires iff the smoothed value strictly exceeds the threshold (equality is
non-anomalous), the overall anomaly is the disjunction with the pattern
verdict, and the reason list contains `Light` iff the light test fired and
`Shake` iff the pattern test fired, with both possible at once. -/
theorem classification_pure_correct (light : ℚ) (sp : Bool) :
    (detect_light_anomaly light = true ↔ LIGHT_THRESHOLD < light) ∧
    detect_light_anomaly LIGHT_THRESHOLD = false ∧
    ((detect_light_anomaly light || sp) = true ↔ (LIGHT_THRESHOLD < light ∨ sp = true)) ∧
    (("Light") ∈ loop_reasons (detect_light_anomaly light) sp ↔ LIGHT_THRESHOLD < light) ∧
    (("Shake") ∈ loop_reasons (detect_light_anomaly light) sp ↔ sp = true) ∧
    loop_reasons true true = [("Light"), ("Shake")] := by
  refine ⟨by simp [detect_light_anomaly], by simp [detect_light_anomaly], ?_, ?_, ?_, rfl⟩
  · simp [detect_light_anomaly]
  · by_cases hl : LIGHT_THRESHOLD < light <;>
      cases sp <;> simp [detect_light_anomaly, loop_reasons, hl]
  · by_cases hl : LIGHT_THRESHOLD < light <;>
      cases sp <;> simp [detect_light_anomaly, loop_reasons, hl]

/-- C3 at a failing input: with the in-window transitions `[0, 0.1, 0.2]`
(count already at the threshold 3 after its first crossing, counter at 1),
two further ticks at `t = 0.25` and `t = 0.30` with no new transition leave
the window count at exactly 3, and `update_shake_pattern` increments
`shake_anomaly_count` again on each of them: the counter reaches 3 with no
new crossing of the threshold. -/
theorem shake_counter_double_increment :
    (update_shake_pattern [0, 1/10, 2/10] 1 false (1/4)).1 = [0, 1/10, 2/10] ∧
    (update_shake_pattern [0, 1/10, 2/10] 1 false (1/4)).2.1 = 2 ∧
    (update_shake_pattern [0, 1/10, 2/10] 2 false (3/10)).2.1 = 3 := by
  refine ⟨?_, ?_, ?_⟩ <;>
    norm_num [update_shake_pattern, CHANGE_TIME_WINDOW, CHANGE_COUNT_THRESHOLD]

/-- C2 counterexample: `state_c2` is reached from startup by one anomalous
enabled tick (consecutive counter 1) followed by engaging the kill switch;
the next tick has `system_enabled = false`, yet the consecutive counter is
not reset to 0 — the disabled branch of `detection_loop` (lines 199-203)
only silences the alarm and never touches `consecutive_count`. -/
theorem disabled_tick_keeps_consecutive_count_cex :
    state_c2.system_active = false ∧
    state_c2.alarm.consecutive_count = 1 ∧
    (loop_tick state_c2 0 false 2).alarm.consecutive_count = 1 ∧
    (loop_tick state_c2 0 false 2).alarm.consecutive_count ≠ 0 := by
  have h1 : state_c2.alarm.consecutive_count = 1 := by
    norm_num [state_c2, loop_tick, hsm_init, read_light_sensor, read_light_buf,
      detect_tilt_change, update_shake_pattern, detect_light_anomaly, update_alarm,
      LIGHT_THRESHOLD, CHANGE_DEBOUNCE, CHANGE_TIME_WINDOW, CHANGE_COUNT_THRESHOLD,
      CONSECUTIVE_ALERTS, SMOOTHING_WINDOW]
  have h2 : state_c2.system_active = false := rfl
  have h3 : state_c2.alarm.alarm_active = false := by
    norm_num [state_c2, loop_tick, hsm_init, read_light_sensor, read_light_buf,
      detect_tilt_change, update_shake_pattern, detect_light_anomaly, update_alarm,
      LIGHT_THRESHOLD, CHANGE_DEBOUNCE, CHANGE_TIME_WINDOW, CHANGE_COUNT_THRESHOLD,
      CONSECUTIVE_ALERTS, SMOOTHING_WINDOW]
  have h4 : loop_tick state_c2 0 false 2 = state_c2 := by
    simp [loop_tick, h2, h3]
  refine ⟨h2, h1, ?_, ?_⟩ <;> simp [h4, h1]

/-- C4 counterexample: on a tick with the kill switch engaged, the engine
does not process the sample at all: the light reading 5 is not appended to
the smoothing buffer, the tilt edge (raw `true` against stored `false`) is
not debounced, and no window or statistics update happens — the state is
returned unchanged (its alarm is already off). -/
theorem disabled_tick_skips_processing_cex :
    state_c4.system_active = false ∧
    (loop_tick state_c4 5 true 1).light_buffer = [] ∧
    (loop_tick state_c4 5 true 1).tilt = state_c4.tilt ∧
    (loop_tick state_c4 5 true 1).change_times = [] ∧
    (loop_tick state_c4 5 true 1).total_readings = 0 := by
  have h : loop_tick state_c4 5 true 1 = state_c4 := by
    simp [loop_tick, state_c4, hsm_init]
  refine ⟨rfl, ?_, ?_, ?_, ?_⟩ <;> rw [h] <;> rfl

/-- Acceptance condition of `detect_tilt_change`: a change is reported iff
the raw value differs from the stored state and the debounce interval has
strictly elapsed since the last accepted change. -/
lemma detect_tilt_change_accepted (s : TiltState) (cs : Bool) (ct : ℚ) :
    (detect_tilt_change s cs ct).2 = true ↔
      (cs ≠ s.last_tilt_state ∧ CHANGE_DEBOUNCE < ct - s.last_change_time) := by
  unfold detect_tilt_change
  by_cases h1 : cs ≠ s.last_tilt_state <;>
    by_cases h2 : CHANGE_DEBOUNCE < ct - s.last_change_time <;> simp [h1, h2]

/-- `last_change_time` is overwritten with the call time exactly on an
accepted change. -/
lemma detect_tilt_change_time (s : TiltState) (cs : Bool) (ct : ℚ) :
    (detect_tilt_change s cs ct).1.last_change_time =
      (if (detect_tilt_change s cs ct).2 then ct else s.last_change_time) := by
  unfold detect_tilt_change
  by_cases h1 : cs ≠ s.last_tilt_state <;>
    by_cases h2 : CHANGE_DEBOUNCE < ct - s.last_change_time <;> simp [h1, h2]

/-- `last_tilt_state` is always overwritten with the raw value. -/
lemma detect_tilt_change_state (s : TiltState) (cs : Bool) (ct : ℚ) :
    (detect_tilt_change s cs ct).1.last_tilt_state = cs := by
  unfold detect_tilt_change
  by_cases h1 : cs ≠ s.last_tilt_state <;>
    by_cases h2 : CHANGE_DEBOUNCE < ct - s.last_change_time <;> simp [h1, h2]

/-- C5: `detect_tilt_change` reports a transition iff the raw value differs
from the stored last state and `now - last_change_time` strictly exceeds
`CHANGE_DEBOUNCE`; on a rejected call the last state is still updated to the
raw value while the accepted time is unchanged; and a second raw transition
less than the debounce interval after a call cannot also be accepted, so two
transitions under `CHANGE_DEBOUNCE` apart collapse to at most one. -/
theorem tilt_debounce_correct (s : TiltState) (cs : Bool) (ct : ℚ) :
    ((detect_tilt_change s cs ct).2 = true ↔
      (cs ≠ s.last_tilt_state ∧ CHANGE_DEBOUNCE < ct - s.last_change_time)) ∧
    ((detect_tilt_change s cs ct).2 = false →
      (detect_tilt_change s cs ct).1.last_tilt_state = cs ∧
      (detect_tilt_change s cs ct).1.last_change_time = s.last_change_time) ∧
    (∀ (cs2 : Bool) (ct2 : ℚ), ct2 - ct < CHANGE_DEBOUNCE →
      ¬((detect_tilt_change s cs ct).2 = true ∧
        (detect_tilt_change (detect_tilt_change s cs ct).1 cs2 ct2).2 = true)) := by
  refine ⟨detect_tilt_change_accepted s cs ct, ?_, ?_⟩
  · intro h
    refine ⟨detect_tilt_change_state s cs ct, ?_⟩
    rw [detect_tilt_change_time, h]
    simp
  · rintro cs2 ct2 hlt ⟨hA, hB⟩
    have e1 : (detect_tilt_change s cs ct).1.last_change_time = ct := by
      rw [detect_tilt_change_time, hA]
      simp
    have h2 := (detect_tilt_change_accepted _ cs2 ct2).1 hB
    rw [e1] at h2
    linarith [h2.2]

/-- Witness for `tilt_debounce_correct`: an accepted transition at `t = 1`
(from stored state `false`, debounce satisfied), a rejected same-state call
leaving the accepted time unchanged, and a second transition 0.03 s later
(under the 0.05 s debounce) that cannot also be accepted. -/
theorem tilt_debounce_correct_witness :
    (detect_tilt_change ⟨false, 0, 0⟩ true 1).2 = true ∧
    (detect_tilt_change ⟨false, 0, 0⟩ false 1).1.last_change_time = 0 ∧
    ¬((detect_tilt_change ⟨false, 0, 0⟩ true 1).2 = true ∧
      (detect_tilt_change (detect_tilt_change ⟨false, 0, 0⟩ true 1).1 false (103/100)).2 =
        true) :=
  ⟨by norm_num [detect_tilt_change, CHANGE_DEBOUNCE],
   ((tilt_debounce_correct ⟨false, 0, 0⟩ false 1).2.1
     (by norm_num [detect_tilt_change, CHANGE_DEBOUNCE])).2,
   (tilt_debounce_correct ⟨false, 0, 0⟩ true 1).2.2 false (103/100)
     (by norm_num [CHANGE_DEBOUNCE])⟩

/-- Characterisation of the iterated smoothing buffer: starting from a
buffer no longer than the window, after consuming `l` the buffer is the
trailing slice of `buf ++ l` that fits the window. -/
lemma run_light_eq (l : List ℚ) : ∀ buf : List ℚ, buf.length ≤ SMOOTHING_WINDOW →
    run_light buf l = (buf ++ l).drop (buf.length + l.length - SMOOTHING_WINDOW) := by
  induction l with
  | nil =>
    intro buf h
    simp [run_light, Nat.sub_eq_zero_of_le h]
  | cons v vs ih =>
    intro buf h
    show run_light (read_light_buf buf v) vs = _
    by_cases hlen : SMOOTHING_WINDOW < (buf ++ [v]).length
    · have h3 : buf.length = SMOOTHING_WINDOW := by
        simp only [List.length_append, List.length_singleton] at hlen
        omega
      rcases buf with _ | ⟨b0, bt⟩
      · simp [SMOOTHING_WINDOW] at h3
      · have hb : read_light_buf (b0 :: bt) v = bt ++ [v] := by
          simp only [read_light_buf]
          rw [if_pos hlen]
          simp
        rw [hb, ih (bt ++ [v]) (by simp at h3 ⊢; omega)]
        have e1 : (bt ++ [v]).length + vs.length - SMOOTHING_WINDOW = vs.length := by
          simp at h3 ⊢
          omega
        have e2 : (b0 :: bt).length + (v :: vs).length - SMOOTHING_WINDOW = vs.length + 1 := by
          simp at h3 ⊢
          omega
        rw [e1, e2]
        simp [List.append_assoc]
    · have hb : read_light_buf buf v = buf ++ [v] := by
        simp only [read_light_buf]
        rw [if_neg hlen]
      rw [hb, ih (buf ++ [v]) (by simp only [List.length_append, List.length_singleton] at hlen ⊢; omega)]
      have e1 : (buf ++ [v]).length + vs.length - SMOOTHING_WINDOW =
          buf.length + (v :: vs).length - SMOOTHING_WINDOW := by
        simp
        omega
      rw [e1, List.append_assoc]
      rfl

/-- Consuming one more reading is one buffer update of the accumulated run. -/
lemma run_light_append (l : List ℚ) (v : ℚ) :
    ∀ buf, run_light buf (l ++ [v]) = read_light_buf (run_light buf l) v := by
  induction l with
  | nil => intro buf; rfl
  | cons x xs ih => intro buf; exact ih (read_light_buf buf x)

/-- C6: for every sequence of raw readings fed through `read_light_sensor`
from the empty startup buffer, the buffer holds exactly the last
`min(SMOOTHING_WINDOW, N)` readings (oldest evicted first), and the value
returned on the `N`-th update is the arithmetic mean of those readings. -/
theorem light_smoothing_mean (l : List ℚ) (l2 : List ℚ) (v : ℚ) :
    run_light [] l = l.drop (l.length - SMOOTHING_WINDOW) ∧
    (run_light [] l).length = min SMOOTHING_WINDOW l.length ∧
    (read_light_sensor (run_light [] l2) v).2 =
      ((l2 ++ [v]).drop ((l2 ++ [v]).length - SMOOTHING_WINDOW)).sum /
        ((min SMOOTHING_WINDOW (l2 ++ [v]).length : ℕ) : ℚ) := by
  have hbase : ∀ m : List ℚ, run_light [] m = m.drop (m.length - SMOOTHING_WINDOW) := by
    intro m
    simpa using run_light_eq m [] (by simp [SMOOTHING_WINDOW])
  have hlen : ∀ m : List ℚ, (run_light [] m).length = min SMOOTHING_WINDOW m.length := by
    intro m
    rw [hbase m, List.length_drop]
    omega
  refine ⟨hbase l, hlen l, ?_⟩
  have h3 : (read_light_sensor (run_light [] l2) v).2 =
      (run_light [] (l2 ++ [v])).sum / ((run_light [] (l2 ++ [v])).length : ℚ) := by
    rw [run_light_append]
    rfl
  rw [h3, hlen (l2 ++ [v]), hbase (l2 ++ [v])]

/-- C9 counterexample: from the initial (enabled) state, a raising light
read makes the whole tick raise — `none`, the detection thread dies — rather
than being absorbed with the previous smoothed value substituted. -/
theorem sensor_failure_crashes_tick_cex :
    (hsm_init false).system_active = true ∧
    loop_tickE (hsm_init false) none false 0 = none := by
  exact ⟨rfl, by simp [loop_tickE, hsm_init]⟩

/-- Single-step characterisation of `update_alarm`: provided the
active flag agrees with `count ≥ CONSECUTIVE_ALERTS` before the step, the
counter becomes `count + 1` on a qualifying input and 0 otherwise, and the
flag again agrees with the new counter. -/
lemma update_alarm_spec (s : AlarmSt) (a e : Bool)
    (h : s.alarm_active = decide (CONSECUTIVE_ALERTS ≤ s.consecutive_count)) :
    (update_alarm s a e).consecutive_count =
      (if a && e then s.consecutive_count + 1 else 0) ∧
    (update_alarm s a e).alarm_active =
      decide (CONSECUTIVE_ALERTS ≤ (if a && e then s.consecutive_count + 1 else 0)) := by
  unfold update_alarm
  by_cases hae : (a && e) = true
  · by_cases hc : CONSECUTIVE_ALERTS ≤ s.consecutive_count + 1
    · cases hA : s.alarm_active <;> simp [hae, hc, hA]
    · have hA : s.alarm_active = false := by
        rw [h]
        simp only [decide_eq_false_iff_not]
        omega
      simp [hae, hc, hA]
  · have hae0 : (a && e) = false := by simpa using hae
    cases hA : s.alarm_active <;> simp [hae0, hA, CONSECUTIVE_ALERTS]

/-- Invariant of the folded alarm machine: the counter tracks the trailing
qualifying streak and the flag tracks `streak ≥ CONSECUTIVE_ALERTS`. -/
lemma run_alarm_spec (l : List (Bool × Bool)) : ∀ s : AlarmSt,
    s.alarm_active = decide (CONSECUTIVE_ALERTS ≤ s.consecutive_count) →
    (run_alarm s l).consecutive_count = streak_from s.consecutive_count l ∧
    (run_alarm s l).alarm_active =
      decide (CONSECUTIVE_ALERTS ≤ streak_from s.consecutive_count l) := by
  induction l with
  | nil =>
    intro s h
    exact ⟨rfl, by simpa [run_alarm, streak_from] using h⟩
  | cons p ps ih =>
    intro s h
    have hs := update_alarm_spec s p.1 p.2 h
    have step1 : run_alarm s (p :: ps) = run_alarm (update_alarm s p.1 p.2) ps := rfl
    have step2 : streak_from s.consecutive_count (p :: ps) =
        streak_from (if qualifies p then s.consecutive_count + 1 else 0) ps := rfl
    rw [step1, step2]
    have hq : (if qualifies p then s.consecutive_count + 1 else 0) =
        (update_alarm s p.1 p.2).consecutive_count := by
      rw [hs.1]
      rfl
    rw [hq]
    exact ih _ (by rw [hs.2, ← hs.1])

/-- C1: starting from the startup state (`Idle`, counter 0), the alarm
machine of `update_alarm` over a trace of `(is_anomaly, system_enabled)`
inputs is active exactly when the trailing streak of qualifying ticks has
reached `CONSECUTIVE_ALERTS`; the `Idle → Active` transition happens on a
tick iff the streak is then exactly `CONSECUTIVE_ALERTS` (so never earlier),
and a further qualifying tick keeps it active (idempotent activation). -/
theorem alarm_active_iff_consecutive_streak (l : List (Bool × Bool)) (p : Bool × Bool) :
    ((run_alarm alarm_init l).alarm_active = true ↔ CONSECUTIVE_ALERTS ≤ streak l) ∧
    (((run_alarm alarm_init (l ++ [p])).alarm_active = true ∧
        (run_alarm alarm_init l).alarm_active = false) ↔
      streak (l ++ [p]) = CONSECUTIVE_ALERTS) ∧
    ((run_alarm alarm_init l).alarm_active = true → qualifies p = true →
      (run_alarm alarm_init (l ++ [p])).alarm_active = true) := by
  have hinit : alarm_init.alarm_active =
      decide (CONSECUTIVE_ALERTS ≤ alarm_init.consecutive_count) := by
    simp [alarm_init, CONSECUTIVE_ALERTS]
  have H : ∀ m : List (Bool × Bool),
      (run_alarm alarm_init m).alarm_active = true ↔ CONSECUTIVE_ALERTS ≤ streak m := by
    intro m
    rw [(run_alarm_spec m alarm_init hinit).2]
    simp [streak, alarm_init]
  have hstep : streak (l ++ [p]) = if qualifies p then streak l + 1 else 0 := by
    simp [streak, streak_from, List.foldl_append]
  refine ⟨H l, ?_, ?_⟩
  · constructor
    · rintro ⟨h1, h2⟩
      rw [H (l ++ [p])] at h1
      have h2b : ¬ CONSECUTIVE_ALERTS ≤ streak l := by
        intro hc
        rw [(H l).2 hc] at h2
        exact Bool.true_eq_false.mp h2
      cases hq : qualifies p
      · rw [hstep, hq] at h1
        simp [CONSECUTIVE_ALERTS] at h1
      · rw [hstep, hq] at h1 ⊢
        simp only [if_true] at h1 ⊢
        simp only [CONSECUTIVE_ALERTS] at h1 h2b ⊢
        omega
    · intro hval
      have hq : qualifies p = true := by
        cases hq0 : qualifies p
        · rw [hstep, hq0] at hval
          simp [CONSECUTIVE_ALERTS] at hval
        · rfl
      rw [hstep, hq] at hval
      simp only [if_true] at hval
      constructor
      · rw [H (l ++ [p]), hstep, hq]
        simp only [if_true]
        omega
      · have hlt : ¬ CONSECUTIVE_ALERTS ≤ streak l := by
          simp only [CONSECUTIVE_ALERTS] at hval ⊢
          omega
        cases hA : (run_alarm alarm_init l).alarm_active
        · rfl
        · exact absurd ((H l).1 hA) hlt
  · intro h1 h2
    rw [H (l ++ [p]), hstep, h2]
    have := (H l).1 h1
    simp only [if_true]
    omega

/-- Witness for `alarm_active_iff_consecutive_streak`: after two qualifying
ticks the alarm is active, and a third qualifying tick keeps it active. -/
theorem alarm_active_iff_consecutive_streak_witness :
    (run_alarm alarm_init [(true, true), (true, true)]).alarm_active = true ∧
    qualifies (true, true) = true ∧
    (run_alarm alarm_init ([(true, true), (true, true)] ++ [(true, true)])).alarm_active =
      true :=
  ⟨by decide, rfl,
   (alarm_active_iff_consecutive_streak [(true, true), (true, true)] (true, true)).2.2
     (by decide) rfl⟩

/-- C2 amended: on an enabled tick whose computed `is_anomaly` is false the
consecutive counter resets to 0 and the alarm is forced to `Idle` (output
silenced if it was on) within the tick; on a disabled tick the alarm is
likewise forced to `Idle` within the tick, but the consecutive counter is
left unchanged, not reset. -/
theorem alarm_reset_and_disable_behavior (s : LoopState) (lr : ℚ) (tr : Bool) (now : ℚ) :
    (s.system_active = true → tick_anomaly s lr tr now = false →
      (loop_tick s lr tr now).alarm.consecutive_count = 0 ∧
      (loop_tick s lr tr now).alarm.alarm_active = false ∧
      (loop_tick s lr tr now).alarm.buzzer_duty =
        (if s.alarm.alarm_active then 0 else s.alarm.buzzer_duty)) ∧
    (s.system_active = false →
      (loop_tick s lr tr now).alarm.alarm_active = false ∧
      (loop_tick s lr tr now).alarm.buzzer_duty =
        (if s.alarm.alarm_active then 0 else s.alarm.buzzer_duty) ∧
      (loop_tick s lr tr now).alarm.consecutive_count = s.alarm.consecutive_count) := by
  constructor
  · intro hs ha
    simp only [tick_anomaly] at ha
    cases hA : s.alarm.alarm_active <;>
      simp [loop_tick, update_alarm, hs, ha, hA]
  · intro hs
    cases hA : s.alarm.alarm_active <;> simp [loop_tick, hs, hA]

/-- Witness for `alarm_reset_and_disable_behavior`: a quiet enabled tick
from startup keeps the counter at 0, and a disabled tick from `state_c2`
leaves the alarm off. -/
theorem alarm_reset_and_disable_behavior_witness :
    tick_anomaly (hsm_init false) 0 false 1 = false ∧
    (loop_tick (hsm_init false) 0 false 1).alarm.consecutive_count = 0 ∧
    (loop_tick state_c2 0 false 2).alarm.alarm_active = false := by
  have hta : tick_anomaly (hsm_init false) 0 false 1 = false := by
    norm_num [tick_anomaly, hsm_init, read_light_sensor, read_light_buf, detect_tilt_change,
      update_shake_pattern, detect_light_anomaly, LIGHT_THRESHOLD, CHANGE_DEBOUNCE,
      CHANGE_TIME_WINDOW, CHANGE_COUNT_THRESHOLD, SMOOTHING_WINDOW]
  exact ⟨hta,
    ((alarm_reset_and_disable_behavior (hsm_init false) 0 false 1).1 rfl hta).1,
    ((alarm_reset_and_disable_behavior state_c2 0 false 2).2 rfl).1⟩

/-- C4 amended: a tick with the system disabled performs no sample
processing at all — the smoothing buffer, tilt debounce state, pattern
window, counters and snapshot are all left untouched; the only effect of the
tick is to force the alarm off (silencing the buzzer if it was on). -/
theorem disabled_tick_only_silences_alarm (s : LoopState) (lr : ℚ) (tr : Bool) (now : ℚ)
    (h : s.system_active = false) :
    loop_tick s lr tr now =
      { s with alarm := { consecutive_count := s.alarm.consecutive_count,
                          alarm_active := false,
                          buzzer_duty := if s.alarm.alarm_active then 0
                                         else s.alarm.buzzer_duty } } := by
  rcases s with ⟨buf, tst, cts, alarm, trd, lac, sac, sys, snap⟩
  rcases alarm with ⟨c, a, d⟩
  dsimp only at h ⊢
  subst h
  cases a <;> simp [loop_tick]

/-- Witness for `disabled_tick_only_silences_alarm` at the disabled startup
state. -/
theorem disabled_tick_only_silences_alarm_witness :
    loop_tick state_c4 5 true 1 =
      { state_c4 with alarm := { consecutive_count := state_c4.alarm.consecutive_count,
                                 alarm_active := false,
                                 buzzer_duty := if state_c4.alarm.alarm_active then 0
                                                else state_c4.alarm.buzzer_duty } } :=
  disabled_tick_only_silences_alarm state_c4 5 true 1 rfl

/-- C9 amended: a raising sensor read is not handled anywhere — on an
enabled tick it propagates out of the tick and kills the loop (no
substitution of the previous smoothed value) — and a successful read of any
value, in range or not, is consumed unvalidated into the smoothing
buffer. -/
theorem sensor_failure_propagates (s : LoopState) (tr : Bool) (now : ℚ) :
    (s.system_active = true → loop_tickE s none tr now = none) ∧
    (∀ v : ℚ, s.system_active = true →
      loop_tickE s (some v) tr now = some (loop_tick s v tr now)) ∧
    (∀ v : ℚ, s.system_active = true →
      (loop_tick s v tr now).light_buffer = read_light_buf s.light_buffer v) := by
  refine ⟨?_, ?_, ?_⟩
  · intro hs
    simp [loop_tickE, hs]
  · intro v hs
    simp [loop_tickE, hs]
  · intro v hs
    simp [loop_tick, hs, read_light_sensor]

/-- Witness for `sensor_failure_propagates`: from startup, a raising read
kills the tick, and a wildly out-of-range reading of 100 V is consumed
straight into the buffer. -/
theorem sensor_failure_propagates_witness :
    loop_tickE (hsm_init false) none true 0 = none ∧
    loop_tickE (hsm_init false) (some 100) true 0 =
      some (loop_tick (hsm_init false) 100 true 0) ∧
    (loop_tick (hsm_init false) 100 true 0).light_buffer =
      read_light_buf (hsm_init false).light_buffer 100 :=
  ⟨(sensor_failure_propagates (hsm_init false) true 0).1 rfl,
   (sensor_failure_propagates (hsm_init false) true 0).2.1 100 rfl,
   (sensor_failure_propagates (hsm_init false) true 0).2.2 100 rfl⟩

end HSM
